import Mathlib

/-!
Verification of the A2A AutoGen weather-agent sample: a shallow embedding of
the weather lookup tool (`agent.py`) and the task lifecycle adapter
(`task_manager.py`, class `WeatherTaskManager`), with theorems settling the
frozen claims about the natural-language specification.

Modelling conventions: Python dictionaries become association lists kept in
insertion order; in-place mutation becomes explicit state passing; a raised
exception becomes the `Except.error` branch carrying the exception text;
Python numbers in the weather table become rationals so that the float
arithmetic `temp * 9 / 5 + 32` is exact (for the table values every result
has at most one decimal digit, where binary doubles round-trip through the
same decimal string Python prints).
-/

namespace A2AWeather

/-! ## Weather lookup tool (`agent.py`, `get_weather`) -/

/-- One row of the hard-coded weather table: temperature (celsius), condition,
humidity percentage. -/
structure CityWeather where
  temp : ℚ
  condition : String
  humidity : Nat
deriving DecidableEq, Repr

/-- The fixed ten-city table of `get_weather`, in source order. -/
def weather_data : List (String × CityWeather) :=
  [ ("New York", ⟨22, "Sunny", 60⟩)
  , ("London", ⟨18, "Cloudy", 80⟩)
  , ("Tokyo", ⟨28, "Rainy", 75⟩)
  , ("Sydney", ⟨30, "Clear", 50⟩)
  , ("Paris", ⟨20, "Partly Cloudy", 65⟩)
  , ("Berlin", ⟨16, "Foggy", 70⟩)
  , ("Moscow", ⟨5, "Snowy", 85⟩)
  , ("Dubai", ⟨35, "Hot", 45⟩)
  , ("San Francisco", ⟨19, "Foggy", 75⟩)
  , ("Chicago", ⟨15, "Windy", 60⟩) ]

/-- Lowercase one character, embedding Python `str.lower` on the ASCII range
(every key of the weather table is ASCII). -/
def lowerChar (c : Char) : Char :=
  if 65 ≤ c.toNat ∧ c.toNat ≤ 90 then Char.ofNat (c.toNat + 32) else c

/-- Lowercase a string character by character (Python `str.lower` on ASCII). -/
def lower (s : String) : String :=
  String.mk (s.data.map lowerChar)

/-- The case-insensitive table lookup: the first key whose lowercasing equals
the lowercased location, paired with its data (source line 44). -/
def find_city (location : String) : Option (String × CityWeather) :=
  weather_data.find? (fun kv => lower kv.1 == lower location)

/-- The temperature quantity `get_weather` reports for a location and unit:
the table value, converted by `temp * 9 / 5 + 32` exactly when the lowercased
unit is "fahrenheit" (source lines 50-56); `none` when the city is unknown. -/
def reported_temp (location : String) (unit : String) : Option ℚ :=
  (find_city location).map (fun kv =>
    if lower unit = "fahrenheit" then kv.2.temp * 9 / 5 + 32 else kv.2.temp)

/-- Rendering of a celsius temperature: the table holds integers and Python
prints the int unchanged. -/
def renderCelsius (q : ℚ) : String :=
  toString q.num

/-- Rendering of a fahrenheit temperature. Python computes a float and prints
its shortest repr; every table value converts to a multiple of 1/10 in a range
where that repr is the one-decimal-digit string this produces (e.g. 82.4,
86.0). -/
def renderFahrenheit (q : ℚ) : String :=
  let n := (q * 10).num.toNat
  toString (n / 10) ++ "." ++ toString (n % 10)

/-- The full formatted string returned by `get_weather` (source lines 44-57):
unknown locations get the fixed "not available" message, known ones the
formatted sentence with the unit-converted temperature. Totality of this
definition is the embedding of "never raises". -/
def get_weather (location : String) (unit : String) : String :=
  match find_city location with
  | none => "Weather data for " ++ location ++ " is not available."
  | some kv =>
    let fahrenheit := lower unit = "fahrenheit"
    let temp : ℚ := if fahrenheit then kv.2.temp * 9 / 5 + 32 else kv.2.temp
    "The weather in " ++ kv.1 ++ " is " ++ kv.2.condition ++
      " with a temperature of " ++
      (if fahrenheit then renderFahrenheit temp else renderCelsius temp) ++
      "°" ++ (if fahrenheit then "F" else "C") ++
      " and humidity of " ++ toString kv.2.humidity ++ "%."

/-! ## A2A data model (`common.types`, as used by `task_manager.py`) -/

/-- Task lifecycle states (`TaskState` enum); only the states this adapter
uses are relevant. -/
inductive TaskState where
  | submitted
  | working
  | completed
  | failed
deriving DecidableEq, Repr

/-- A message content part: a text part carrying its text, or a non-text part
(file/data), whose kind this adapter never inspects beyond the type test. -/
inductive Part where
  | text (s : String)
  | nonText (kind : String)
deriving DecidableEq, Repr

/-- A protocol message: role tag plus ordered content parts. -/
structure Message where
  role : String
  parts : List Part
deriving DecidableEq, Repr

/-- A task status: a state plus an optional message payload. -/
structure TaskStatus where
  state : TaskState
  message : Option Message := none
deriving DecidableEq, Repr

/-- One unit of produced output attached to a task (`Artifact`): parts, index
(default 0) and optional append flag. -/
structure Artifact where
  parts : List Part
  index : Nat := 0
  append : Option Bool := none
deriving DecidableEq, Repr

/-- A stored task record: id, session id, current status, optional artifact
list (absent until first initialized). -/
structure Task where
  id : String
  sessionId : String
  status : TaskStatus
  artifacts : Option (List Artifact) := none
deriving DecidableEq, Repr

/-- The shared in-memory task map (`self.tasks`), as an association list in
insertion order. -/
abbrev TaskMap := List (String × Task)

/-- Dictionary lookup `self.tasks[task_id]`, first match wins. -/
def TaskMap.find : TaskMap → String → Option Task
  | [], _ => none
  | (k, t) :: rest, id => if k = id then some t else TaskMap.find rest id

/-- In-place replacement of the record stored under an existing key; a missing
key leaves the map unchanged (the adapter only sets keys it has just found). -/
def TaskMap.set : TaskMap → String → Task → TaskMap
  | [], _, _ => []
  | (k, u) :: rest, id, t =>
    if k = id then (k, t) :: rest else (k, u) :: TaskMap.set rest id t

/-- The parameters of a send-task request (`TaskSendParams`): task id, session
id, inbound message, accepted output modes. -/
structure TaskSendParams where
  id : String
  sessionId : String
  message : Message
  acceptedOutputModes : List String
deriving DecidableEq, Repr

/-- A protocol-level error object attached to a response: an internal error
carrying a message, or the incompatible-content-types error produced when
validation rejects the requested output modes. -/
inductive RpcError where
  | internalError (message : String)
  | contentTypeNotSupported
deriving DecidableEq, Repr

/-- Outcome of a non-streaming send-task call that returned (rather than
raised): the full task record on success, or a structured protocol error. -/
inductive TMResponse where
  | result (t : Task)
  | error (e : RpcError)
deriving DecidableEq, Repr

/-! ## Task lifecycle adapter (`task_manager.py`, `WeatherTaskManager`)

A raised Python exception is modelled as the `Except.error` branch carrying
the exception text. Operations that mutate `self.tasks` return the map they
leave behind alongside their outcome, so that what an exception leaves in the
store stays observable. -/

/-- `WeatherTaskManager.update_store` (source lines 135-153): look the task up
(raising `ValueError` with the "not found" text when absent), overwrite its
status, and when artifacts are supplied append them to the artifact list,
initializing the list only when it was `None`. Returns the updated record and
the map after the call. -/
def update_store (tasks : TaskMap) (task_id : String) (status : TaskStatus)
    (artifacts : Option (List Artifact)) : Except String Task × TaskMap :=
  match tasks.find task_id with
  | none => (.error ("Task " ++ task_id ++ " not found"), tasks)
  | some task =>
    let task1 : Task := { task with status := status }
    let task2 : Task :=
      match artifacts with
      | none => task1
      | some arts => { task1 with artifacts := some (task1.artifacts.getD [] ++ arts) }
    (.ok task2, tasks.set task_id task2)

/-- `WeatherTaskManager._get_user_query` (source lines 110-115): the first
part of the inbound message, required to be a text part; a non-text part
raises `ValueError("Only text parts are supported")`, and an empty parts list
raises an index error. -/
def get_user_query (params : TaskSendParams) : Except String String :=
  match params.message.parts with
  | [] => .error "IndexError: list index out of range"
  | Part.text s :: _ => .ok s
  | Part.nonText _ :: _ => .error "Only text parts are supported"

/-- `WeatherAgent.SUPPORTED_CONTENT_TYPES` (agent.py line 63). -/
def SUPPORTED_CONTENT_TYPES : List String := ["text", "text/plain"]

/-- Modelled from the spec: `common.server.utils.are_modalities_compatible`
is not under src/. Spec section 4.3: validation "checks that the client's
accepted output modes intersect the agent's supported modes". -/
def are_modalities_compatible (accepted : List String) (supported : List String) : Bool :=
  accepted.any (fun m => supported.contains m)

/-- `WeatherTaskManager._validate_request` (source lines 93-108): `none` when
the modalities are compatible, otherwise the incompatible-types protocol
error. -/
def validate_request (params : TaskSendParams) : Option RpcError :=
  if are_modalities_compatible params.acceptedOutputModes SUPPORTED_CONTENT_TYPES then
    none
  else
    some RpcError.contentTypeNotSupported

/-- Modelled from the spec: `InMemoryTaskManager.upsert_task` is not under
src/. Spec sections 3 and 4.3: the task record is "created on first request
for a given id" from the request parameters and merged on later requests
(the merge touches only the history, which this model does not carry), and
the state machine starts at `submitted`. -/
def upsert_task (tasks : TaskMap) (params : TaskSendParams) : TaskMap :=
  match tasks.find params.id with
  | some _ => tasks
  | none =>
    tasks ++ [(params.id, { id := params.id, sessionId := params.sessionId,
                            status := { state := TaskState.submitted } })]

/-- `WeatherTaskManager._invoke` (source lines 155-188). The agent call
`self.agent.invoke(query, sessionId)` is the external LLM boundary, modelled
by the function argument `agentInvoke` (an `Except.error` is the call
raising). Query extraction happens before the `try` block, so its exception
propagates uncaught; everything inside the `try` is converted to an
internal-error response carrying the exception text. -/
def invoke (tasks : TaskMap) (agentInvoke : String → Except String String)
    (params : TaskSendParams) : Except String TMResponse × TaskMap :=
  match get_user_query params with
  | .error e => (.error e, tasks)
  | .ok query =>
    match update_store tasks params.id { state := TaskState.working } none with
    | (.error e, tasks1) =>
      (.ok (.error (.internalError ("Error invoking agent: " ++ e))), tasks1)
    | (.ok _, tasks1) =>
      match agentInvoke query with
      | .error e =>
        (.ok (.error (.internalError ("Error invoking agent: " ++ e))), tasks1)
      | .ok content =>
        let parts : List Part := [Part.text content]
        match update_store tasks1 params.id
            { state := TaskState.completed,
              message := some { role := "agent", parts := parts } }
            (some [{ parts := parts }]) with
        | (.error e, tasks2) =>
          (.ok (.error (.internalError ("Error invoking agent: " ++ e))), tasks2)
        | (.ok task, tasks2) => (.ok (.result task), tasks2)

/-- `WeatherTaskManager.on_send_task` (source lines 117-123): validate,
upsert the task record, then `_invoke`. -/
def on_send_task (tasks : TaskMap) (agentInvoke : String → Except String String)
    (params : TaskSendParams) : Except String TMResponse × TaskMap :=
  match validate_request params with
  | some err => (.ok (.error err), tasks)
  | none => invoke (upsert_task tasks params) agentInvoke params

/-! ## Streaming path (`_stream_generator`, source lines 42-91) -/

/-- One item yielded by `WeatherAgent.stream`: the completion flag and the
text content (the `require_user_input` field is never read by the adapter). -/
structure StreamItem where
  is_task_complete : Bool
  content : String
deriving DecidableEq, Repr

/-- One element yielded by the streaming generator: a
`SendTaskStreamingResponse` wrapping a `TaskStatusUpdateEvent` (task id,
status, final flag), or a `JSONRPCResponse` carrying a protocol error. -/
inductive StreamEvent where
  | statusUpdate (taskId : String) (status : TaskStatus) (final : Bool)
  | errorResponse (e : RpcError)
deriving DecidableEq, Repr

/-- The status `_stream_generator` builds for one stream item (source lines
52-64): `working` for a non-final item, `completed` for the final one, in both
cases with an agent message holding one text part with the item's content. -/
def stream_status (item : StreamItem) : TaskStatus :=
  { state := if item.is_task_complete then TaskState.completed else TaskState.working,
    message := some { role := "agent", parts := [Part.text item.content] } }

/-- The fixed message of the internal error yielded when the stream raises
(source lines 84-91). -/
def STREAM_ERROR_MESSAGE : String := "An error occurred while streaming the response"

/-- `WeatherTaskManager._stream_generator` (source lines 42-91), parametrized
by the outcome of iterating `self.agent.stream`: the list of items it yielded
and, when it raised after them, `some` exception text. For each item the
generator persists the item's status via `update_store` (status only — the
`artifacts` local built for a final item is never passed on) and yields a
status-update event whose final flag is the item's completion flag. Any
exception inside the loop — the stream raising, or `update_store` raising on
a missing task — is caught and turned into one final internal-error response
with the fixed message. Returns the yielded events and the map left behind. -/
def stream_generator (tasks : TaskMap) (taskId : String)
    (items : List StreamItem) (streamErr : Option String) :
    List StreamEvent × TaskMap :=
  match items with
  | [] =>
    match streamErr with
    | none => ([], tasks)
    | some _ => ([StreamEvent.errorResponse (.internalError STREAM_ERROR_MESSAGE)], tasks)
  | item :: rest =>
    match update_store tasks taskId (stream_status item) none with
    | (.error _, tasks1) =>
      ([StreamEvent.errorResponse (.internalError STREAM_ERROR_MESSAGE)], tasks1)
    | (.ok _, tasks1) =>
      let out := stream_generator tasks1 taskId rest streamErr
      (StreamEvent.statusUpdate taskId (stream_status item) item.is_task_complete :: out.1,
       out.2)

/-- Whether a stream event is a protocol error response. -/
def StreamEvent.isError : StreamEvent → Bool
  | .errorResponse _ => true
  | .statusUpdate _ _ _ => false

/-- Whether a stream event is a status update marked final (a terminal
task-status event). -/
def StreamEvent.isFinal : StreamEvent → Bool
  | .errorResponse _ => false
  | .statusUpdate _ _ final => final

/-! ## Concrete fixtures and a substring check used by witnesses -/

/-- Whether the character list starts with the pattern. -/
def startsWithPat : List Char → List Char → Bool
  | _, [] => true
  | [], _ :: _ => false
  | c :: cs, p :: ps => c == p && startsWithPat cs ps

/-- Whether the pattern occurs somewhere in the character list. -/
def hasPat : List Char → List Char → Bool
  | [], pat => pat.isEmpty
  | c :: cs, pat => startsWithPat (c :: cs) pat || hasPat cs pat

/-- Whether `pat` occurs as a substring of `s`. -/
def containsText (s pat : String) : Bool :=
  hasPat s.data pat.data

/-- A freshly submitted task record, as `upsert_task` creates it. -/
def exampleTask : Task :=
  { id := "t1", sessionId := "s1", status := { state := TaskState.submitted } }

/-- A stored task that already owns one artifact. -/
def exampleTask2 : Task :=
  { id := "t1", sessionId := "s1", status := { state := TaskState.working },
    artifacts := some [{ parts := [Part.text "old"] }] }

/-- Concrete valid send-task parameters. -/
def exampleParams : TaskSendParams :=
  { id := "t1", sessionId := "s1",
    message := { role := "user", parts := [Part.text "What is the weather in Tokyo?"] },
    acceptedOutputModes := ["text"] }

/-- Parameters whose first message part is not text but whose accepted output
modes are compatible. -/
def nonTextParams : TaskSendParams :=
  { id := "t1", sessionId := "s1",
    message := { role := "user", parts := [Part.nonText "file"] },
    acceptedOutputModes := ["text"] }

/-- Parameters whose accepted output modes do not intersect the supported
content types. -/
def badModeParams : TaskSendParams :=
  { id := "t1", sessionId := "s1",
    message := { role := "user", parts := [Part.text "hello"] },
    acceptedOutputModes := ["audio"] }

/-! ## Helper lemmas about the task map and the store operations -/

theorem find_set_self (m : TaskMap) (i : String) (t t0 : Task)
    (h : m.find i = some t0) : (m.set i t).find i = some t := by
  induction m with
  | nil => simp [TaskMap.find] at h
  | cons hd tl ih =>
    rcases hd with ⟨k, u⟩
    by_cases hk : k = i
    · simp [TaskMap.set, TaskMap.find, hk]
    · simp [TaskMap.set, TaskMap.find, hk] at h ⊢
      exact ih h

theorem find_set_ne (m : TaskMap) (i k : String) (t : Task)
    (h : k ≠ i) : (m.set i t).find k = m.find k := by
  induction m with
  | nil => simp [TaskMap.set]
  | cons hd tl ih =>
    rcases hd with ⟨k0, u⟩
    by_cases hk0 : k0 = i
    · subst hk0
      simp [TaskMap.set, TaskMap.find, Ne.symm h]
    · by_cases hkk : k0 = k
      · simp [TaskMap.set, TaskMap.find, hk0, hkk, h]
      · simp [TaskMap.set, TaskMap.find, hk0, hkk]
        exact ih

/-- Characterization of a successful `update_store` with no artifacts: only
the status of the found record changes. -/
theorem update_store_status_only (m : TaskMap) (i : String) (st : TaskStatus)
    (t0 : Task) (h : m.find i = some t0) :
    update_store m i st none = (.ok { t0 with status := st }, m.set i { t0 with status := st }) := by
  unfold update_store
  rw [h]

/-- Characterization of a successful `update_store` with artifacts supplied:
the status changes and the artifacts are appended after the existing ones. -/
theorem update_store_with_artifacts (m : TaskMap) (i : String) (st : TaskStatus)
    (arts : List Artifact) (t0 : Task) (h : m.find i = some t0) :
    update_store m i st (some arts)
      = (.ok { t0 with status := st, artifacts := some (t0.artifacts.getD [] ++ arts) },
         m.set i { t0 with status := st, artifacts := some (t0.artifacts.getD [] ++ arts) }) := by
  unfold update_store
  rw [h]

/-- Master description of a streaming run over a task present in the store:
the yielded events are the per-item status updates followed by one error
response exactly when the stream raised, and the stored record ends at the
last item's status, every other field untouched. -/
theorem stream_generator_run (taskId : String) (items : List StreamItem)
    (streamErr : Option String) (tasks : TaskMap) (t0 : Task)
    (hfind : tasks.find taskId = some t0) :
    (stream_generator tasks taskId items streamErr).1
      = items.map (fun it =>
          StreamEvent.statusUpdate taskId (stream_status it) it.is_task_complete)
        ++ (match streamErr with
            | none => []
            | some _ => [StreamEvent.errorResponse (.internalError STREAM_ERROR_MESSAGE)])
    ∧ ((stream_generator tasks taskId items streamErr).2).find taskId
        = some { t0 with status := (items.map stream_status).getLastD t0.status } := by
  induction items generalizing tasks t0 with
  | nil => cases streamErr <;> simp [stream_generator, hfind]
  | cons item rest ih =>
    have hupd := update_store_status_only tasks taskId (stream_status item) t0 hfind
    have hfind1 : (tasks.set taskId { t0 with status := stream_status item }).find taskId
        = some { t0 with status := stream_status item } :=
      find_set_self tasks taskId _ t0 hfind
    have hrec := ih (tasks.set taskId { t0 with status := stream_status item })
      { t0 with status := stream_status item } hfind1
    refine ⟨?_, ?_⟩
    · simp only [stream_generator, hupd]
      rw [hrec.1]
      simp
    · simp only [stream_generator, hupd]
      rw [hrec.2, List.map_cons, List.getLastD_cons]

/-- A streaming run never changes the artifacts of any stored task: the
per-item updates pass no artifacts, and the error path does not touch the
store. -/
theorem stream_generator_artifacts (taskId : String) (items : List StreamItem)
    (streamErr : Option String) (tasks : TaskMap) (k : String) :
    (((stream_generator tasks taskId items streamErr).2).find k).map (fun t => t.artifacts)
      = (tasks.find k).map (fun t => t.artifacts) := by
  induction items generalizing tasks with
  | nil => cases streamErr <;> simp [stream_generator]
  | cons item rest ih =>
    cases hfind : tasks.find taskId with
    | none => simp [stream_generator, update_store, hfind]
    | some t0 =>
      have hupd := update_store_status_only tasks taskId (stream_status item) t0 hfind
      have hstep : ((tasks.set taskId { t0 with status := stream_status item }).find k).map
            (fun t => t.artifacts)
          = (tasks.find k).map (fun t => t.artifacts) := by
        by_cases hk : k = taskId
        · subst hk
          rw [find_set_self tasks k _ t0 hfind, hfind]
          simp
        · rw [find_set_ne tasks taskId k _ hk]
      simp [stream_generator, hupd]
      rw [ih, hstep]

/-- Characterization of `_invoke` when the agent call raises: query extraction
succeeds, the working status is persisted, and the exception is converted to
an internal-error response whose message carries the exception text; the
stored record keeps the working status. -/
theorem invoke_agent_raises (tasks : TaskMap)
    (agentInvoke : String → Except String String) (params : TaskSendParams)
    (q e : String) (ps : List Part) (t0 : Task)
    (hparts : params.message.parts = Part.text q :: ps)
    (hfind : tasks.find params.id = some t0)
    (hagent : agentInvoke q = .error e) :
    invoke tasks agentInvoke params
      = (.ok (.error (.internalError ("Error invoking agent: " ++ e))),
         tasks.set params.id { t0 with status := { state := TaskState.working } }) := by
  have h1 := update_store_status_only tasks params.id { state := TaskState.working } t0 hfind
  simp [invoke, get_user_query, hparts, h1, hagent]

/-- Characterization of `_invoke` when the agent call succeeds: the working
status is persisted, then the completed status with the agent-authored
message, and exactly one text artifact holding the agent result is appended
to the record, which the response returns in full. -/
theorem invoke_agent_ok (tasks : TaskMap)
    (agentInvoke : String → Except String String) (params : TaskSendParams)
    (q content : String) (ps : List Part) (t0 : Task)
    (hparts : params.message.parts = Part.text q :: ps)
    (hfind : tasks.find params.id = some t0)
    (hagent : agentInvoke q = .ok content) :
    invoke tasks agentInvoke params
      = (.ok (.result
          { t0 with
            status := { state := TaskState.completed,
                        message := some { role := "agent", parts := [Part.text content] } },
            artifacts := some (t0.artifacts.getD [] ++ [{ parts := [Part.text content] }]) }),
         (tasks.set params.id { t0 with status := { state := TaskState.working } }).set params.id
          { t0 with
            status := { state := TaskState.completed,
                        message := some { role := "agent", parts := [Part.text content] } },
            artifacts := some (t0.artifacts.getD [] ++ [{ parts := [Part.text content] }]) }) := by
  have h1 := update_store_status_only tasks params.id { state := TaskState.working } t0 hfind
  have hfind1 : (tasks.set params.id { t0 with status := { state := TaskState.working } }).find params.id
      = some { t0 with status := { state := TaskState.working } } :=
    find_set_self tasks params.id _ t0 hfind
  have h2 := update_store_with_artifacts
    (tasks.set params.id { t0 with status := { state := TaskState.working } }) params.id
    { state := TaskState.completed,
      message := some { role := "agent", parts := [Part.text content] } }
    [{ parts := [Part.text content] }]
    { t0 with status := { state := TaskState.working } } hfind1
  simp [invoke, get_user_query, hparts, h1, hagent, h2]

/-- A key just appended to the map is found. -/
theorem find_append_self (m : TaskMap) (i : String) (t : Task) :
    TaskMap.find (m ++ [(i, t)]) i ≠ none := by
  induction m with
  | nil => simp [TaskMap.find]
  | cons hd tl ih =>
    rcases hd with ⟨k, u⟩
    by_cases hk : k = i
    · simp [TaskMap.find, hk]
    · simp [TaskMap.find, hk]
      exact ih

/-- After an upsert, the task record for the request id exists. -/
theorem upsert_task_find_ne_none (tasks : TaskMap) (params : TaskSendParams) :
    TaskMap.find (upsert_task tasks params) params.id ≠ none := by
  unfold upsert_task
  cases hf : tasks.find params.id with
  | some t => simp [hf]
  | none => simpa [hf] using find_append_self tasks params.id _

/-! ## The claims -/

/-- C4: `update_store` called with a task id absent from the task map fails
deterministically with the lookup error for that id, and returns the task map
exactly as it was: no entry is added, removed, or modified. -/
theorem update_store_unknown_id (tasks : TaskMap) (task_id : String)
    (status : TaskStatus) (artifacts : Option (List Artifact))
    (h : tasks.find task_id = none) :
    update_store tasks task_id status artifacts
      = (.error ("Task " ++ task_id ++ " not found"), tasks) := by
  unfold update_store
  rw [h]

/-- C4 witness: updating id "t2" on a map holding only "t1" raises the lookup
error and leaves the map untouched. -/
theorem update_store_unknown_id_witness :
    TaskMap.find [("t1", exampleTask)] "t2" = none
    ∧ update_store [("t1", exampleTask)] "t2" { state := TaskState.working } none
        = (.error ("Task " ++ "t2" ++ " not found"), [("t1", exampleTask)]) :=
  ⟨rfl, update_store_unknown_id [("t1", exampleTask)] "t2"
    { state := TaskState.working } none rfl⟩

/-- C10: a successful `update_store` changes only the status field and, when
artifacts are supplied, the artifacts list of the addressed task: the new
artifacts are appended after the existing ones in order, the list being
initialized only when it was absent; the other fields of the task and every
other entry of the map are unchanged. -/
theorem update_store_frame (tasks : TaskMap) (task_id : String)
    (status : TaskStatus) (artifacts : Option (List Artifact)) (t0 : Task)
    (h : tasks.find task_id = some t0) :
    ∃ t2, update_store tasks task_id status artifacts = (.ok t2, tasks.set task_id t2)
      ∧ t2.id = t0.id
      ∧ t2.sessionId = t0.sessionId
      ∧ t2.status = status
      ∧ t2.artifacts = (match artifacts with
          | none => t0.artifacts
          | some arts => some (t0.artifacts.getD [] ++ arts))
      ∧ (tasks.set task_id t2).find task_id = some t2
      ∧ ∀ k, k ≠ task_id → (tasks.set task_id t2).find k = tasks.find k := by
  cases artifacts with
  | none =>
    exact ⟨{ t0 with status := status },
      update_store_status_only tasks task_id status t0 h, rfl, rfl, rfl, rfl,
      find_set_self tasks task_id _ t0 h,
      fun k hk => find_set_ne tasks task_id k _ hk⟩
  | some arts =>
    exact ⟨{ t0 with
             status := status,
             artifacts := some (t0.artifacts.getD [] ++ arts) },
      update_store_with_artifacts tasks task_id status arts t0 h, rfl, rfl, rfl, rfl,
      find_set_self tasks task_id _ t0 h,
      fun k hk => find_set_ne tasks task_id k _ hk⟩

/-- C10 witness: updating "t1" (which already owns one artifact) with one new
artifact appends it after the old one and touches nothing else. -/
theorem update_store_frame_witness :
    TaskMap.find [("t1", exampleTask2)] "t1" = some exampleTask2
    ∧ (∃ t2, update_store [("t1", exampleTask2)] "t1" { state := TaskState.completed }
          (some [{ parts := [Part.text "new"] }])
          = (.ok t2, TaskMap.set [("t1", exampleTask2)] "t1" t2)
        ∧ t2.id = exampleTask2.id
        ∧ t2.sessionId = exampleTask2.sessionId
        ∧ t2.status = { state := TaskState.completed }
        ∧ t2.artifacts = some (exampleTask2.artifacts.getD []
            ++ [{ parts := [Part.text "new"] }])
        ∧ TaskMap.find (TaskMap.set [("t1", exampleTask2)] "t1" t2) "t1" = some t2
        ∧ ∀ k, k ≠ "t1" →
            TaskMap.find (TaskMap.set [("t1", exampleTask2)] "t1" t2) k
              = TaskMap.find [("t1", exampleTask2)] k) :=
  ⟨rfl, update_store_frame [("t1", exampleTask2)] "t1" { state := TaskState.completed }
    (some [{ parts := [Part.text "new"] }]) exampleTask2 rfl⟩

/-- C1: when the agent's one-shot invocation raises after the task's status
was set to working, `_invoke` returns a response carrying an internal-error
object whose message is the fixed prefix followed by the exception text, and
the stored record keeps the working status: no failed transition is ever
recorded. -/
theorem invoke_exception_leaves_working (tasks : TaskMap)
    (agentInvoke : String → Except String String) (params : TaskSendParams)
    (q e : String) (ps : List Part) (t0 : Task)
    (hparts : params.message.parts = Part.text q :: ps)
    (hfind : tasks.find params.id = some t0)
    (hagent : agentInvoke q = .error e) :
    (invoke tasks agentInvoke params).1
      = .ok (.error (.internalError ("Error invoking agent: " ++ e)))
    ∧ (((invoke tasks agentInvoke params).2).find params.id).map (fun t => t.status)
        = some { state := TaskState.working } := by
  rw [invoke_agent_raises tasks agentInvoke params q e ps t0 hparts hfind hagent]
  refine ⟨rfl, ?_⟩
  rw [find_set_self tasks params.id _ t0 hfind]
  rfl

/-- C1 witness: an agent double that raises "boom" on the valid request. -/
theorem invoke_exception_leaves_working_witness :
    exampleParams.message.parts = Part.text "What is the weather in Tokyo?" :: []
    ∧ TaskMap.find [("t1", exampleTask)] exampleParams.id = some exampleTask
    ∧ ((fun _ : String => (.error "boom" : Except String String))
        "What is the weather in Tokyo?" = .error "boom")
    ∧ ((invoke [("t1", exampleTask)] (fun _ => .error "boom") exampleParams).1
        = .ok (.error (.internalError ("Error invoking agent: " ++ "boom")))
      ∧ (((invoke [("t1", exampleTask)] (fun _ => .error "boom") exampleParams).2).find
            exampleParams.id).map (fun t => t.status)
          = some { state := TaskState.working }) :=
  ⟨rfl, rfl, rfl,
   invoke_exception_leaves_working [("t1", exampleTask)] (fun _ => .error "boom")
     exampleParams "What is the weather in Tokyo?" "boom" [] exampleTask rfl rfl rfl⟩

/-- C7: for a request whose first part is text and whose agent invocation
succeeds, `_invoke` sets the stored status to completed with an agent-authored
message built from the result, appends exactly one text artifact holding the
result to the artifact list, and returns the full updated task record. -/
theorem invoke_success_completes_task (tasks : TaskMap)
    (agentInvoke : String → Except String String) (params : TaskSendParams)
    (q content : String) (ps : List Part) (t0 : Task)
    (hparts : params.message.parts = Part.text q :: ps)
    (hfind : tasks.find params.id = some t0)
    (hagent : agentInvoke q = .ok content) :
    ∃ t2, (invoke tasks agentInvoke params).1 = .ok (.result t2)
      ∧ t2.status.state = TaskState.completed
      ∧ t2.status.message = some { role := "agent", parts := [Part.text content] }
      ∧ t2.artifacts = some (t0.artifacts.getD [] ++ [{ parts := [Part.text content] }])
      ∧ ((invoke tasks agentInvoke params).2).find params.id = some t2 := by
  rw [invoke_agent_ok tasks agentInvoke params q content ps t0 hparts hfind hagent]
  refine ⟨_, rfl, rfl, rfl, rfl, ?_⟩
  exact find_set_self _ params.id _ { t0 with status := { state := TaskState.working } }
    (find_set_self tasks params.id _ t0 hfind)

/-- C7 witness: the Tokyo scenario with the real weather tool as test double
(bypassing the LLM): the upserted task "t1" completes and the artifact text
contains "Tokyo", "Rainy", "28" and "75". -/
theorem invoke_success_completes_task_witness :
    (∃ t2, (invoke (upsert_task [] exampleParams)
          (fun _ => .ok (get_weather "Tokyo" "celsius")) exampleParams).1
        = .ok (.result t2)
      ∧ t2.status.state = TaskState.completed
      ∧ t2.status.message
          = some { role := "agent", parts := [Part.text (get_weather "Tokyo" "celsius")] }
      ∧ t2.artifacts = some (exampleTask.artifacts.getD []
          ++ [{ parts := [Part.text (get_weather "Tokyo" "celsius")] }])
      ∧ ((invoke (upsert_task [] exampleParams)
            (fun _ => .ok (get_weather "Tokyo" "celsius")) exampleParams).2).find
          exampleParams.id = some t2)
    ∧ containsText (get_weather "Tokyo" "celsius") "Tokyo" = true
    ∧ containsText (get_weather "Tokyo" "celsius") "Rainy" = true
    ∧ containsText (get_weather "Tokyo" "celsius") "28" = true
    ∧ containsText (get_weather "Tokyo" "celsius") "75" = true :=
  ⟨invoke_success_completes_task (upsert_task [] exampleParams)
      (fun _ => .ok (get_weather "Tokyo" "celsius")) exampleParams
      "What is the weather in Tokyo?" (get_weather "Tokyo" "celsius") [] exampleTask
      rfl rfl rfl,
   by decide, by decide, by decide, by decide⟩

/-- C2: an entire streaming subscription never persists an artifact: each
per-item `update_store` call passes only the status, so the artifacts of
every stored task are unchanged by the whole run (the artifact built locally
for the final item is dropped), whereas the non-streaming path persists both
the completed status and the artifact. -/
theorem streaming_never_persists_artifacts (tasks : TaskMap) (taskId : String)
    (items : List StreamItem) (streamErr : Option String)
    (agentInvoke : String → Except String String) (params : TaskSendParams)
    (q content : String) (ps : List Part) (t0 : Task)
    (hparts : params.message.parts = Part.text q :: ps)
    (hfind : tasks.find params.id = some t0)
    (hagent : agentInvoke q = .ok content) :
    (∀ k, (TaskMap.find (stream_generator tasks taskId items streamErr).2 k).map
          (fun t => t.artifacts)
        = (tasks.find k).map (fun t => t.artifacts))
    ∧ (TaskMap.find (invoke tasks agentInvoke params).2 params.id).map
          (fun t => t.artifacts)
        = some (some (t0.artifacts.getD [] ++ [{ parts := [Part.text content] }])) := by
  refine ⟨fun k => stream_generator_artifacts taskId items streamErr tasks k, ?_⟩
  rw [invoke_agent_ok tasks agentInvoke params q content ps t0 hparts hfind hagent]
  rw [find_set_self _ params.id _ { t0 with status := { state := TaskState.working } }
    (find_set_self tasks params.id _ t0 hfind)]
  rfl

/-- C2 witness: a one-item final stream leaves the artifacts of "t1" alone,
while the non-streaming invocation with result "report" appends one text
artifact. -/
theorem streaming_never_persists_artifacts_witness :
    ((TaskMap.find (stream_generator [("t1", exampleTask)] "t1"
          [{ is_task_complete := true, content := "done" }] none).2 "t1").map
        (fun t => t.artifacts)
      = (TaskMap.find [("t1", exampleTask)] "t1").map (fun t => t.artifacts))
    ∧ ((TaskMap.find (invoke [("t1", exampleTask)] (fun _ => .ok "report")
          exampleParams).2 exampleParams.id).map (fun t => t.artifacts)
      = some (some (exampleTask.artifacts.getD []
          ++ [{ parts := [Part.text "report"] }]))) :=
  ⟨(streaming_never_persists_artifacts [("t1", exampleTask)] "t1"
      [{ is_task_complete := true, content := "done" }] none (fun _ => .ok "report")
      exampleParams "What is the weather in Tokyo?" "report" [] exampleTask
      rfl rfl rfl).1 "t1",
   (streaming_never_persists_artifacts [("t1", exampleTask)] "t1"
      [{ is_task_complete := true, content := "done" }] none (fun _ => .ok "report")
      exampleParams "What is the weather in Tokyo?" "report" [] exampleTask
      rfl rfl rfl).2⟩

/-- C5: within one streaming subscription over a stored task, each non-final
item is persisted as a working status with one text message part and emitted
as a non-final status-update event; the final (last) item is persisted and
emitted as a completed status whose event has final = true and is the last
event of the sequence. -/
theorem streaming_event_sequence (tasks : TaskMap) (taskId : String)
    (body : List StreamItem) (lastI : StreamItem) (t0 : Task)
    (hfind : tasks.find taskId = some t0)
    (hbody : ∀ it ∈ body, it.is_task_complete = false)
    (hlast : lastI.is_task_complete = true) :
    (stream_generator tasks taskId (body ++ [lastI]) none).1
      = body.map (fun it => StreamEvent.statusUpdate taskId
          { state := TaskState.working,
            message := some { role := "agent", parts := [Part.text it.content] } } false)
        ++ [StreamEvent.statusUpdate taskId
            { state := TaskState.completed,
              message := some { role := "agent", parts := [Part.text lastI.content] } } true]
    ∧ (TaskMap.find (stream_generator tasks taskId (body ++ [lastI]) none).2 taskId).map
        (fun t => t.status)
      = some { state := TaskState.completed,
               message := some { role := "agent", parts := [Part.text lastI.content] } } := by
  have hrun := stream_generator_run taskId (body ++ [lastI]) none tasks t0 hfind
  constructor
  · rw [hrun.1]
    simp only [List.map_append, List.map_cons, List.map_nil, List.append_nil]
    congr 1
    · apply List.map_congr_left
      intro it hit
      simp [stream_status, hbody it hit]
    · simp [stream_status, hlast]
  · rw [hrun.2]
    rw [List.map_append, List.map_cons, List.map_nil]
    simp [List.getLastD_eq_getLast?, List.getLast?_concat, stream_status, hlast]

/-- C5 witness: a two-item stream (one progress update, one final item) over
the stored task "t1". -/
theorem streaming_event_sequence_witness :
    TaskMap.find [("t1", exampleTask)] "t1" = some exampleTask
    ∧ ((stream_generator [("t1", exampleTask)] "t1"
          (([{ is_task_complete := false, content := "Processing your weather request..." }]
            : List StreamItem)
            ++ [{ is_task_complete := true, content := "done" }]) none).1
        = [StreamEvent.statusUpdate "t1"
            { state := TaskState.working,
              message := some { role := "agent",
                                parts := [Part.text "Processing your weather request..."] } }
            false,
           StreamEvent.statusUpdate "t1"
            { state := TaskState.completed,
              message := some { role := "agent", parts := [Part.text "done"] } } true]
      ∧ (TaskMap.find (stream_generator [("t1", exampleTask)] "t1"
            (([{ is_task_complete := false, content := "Processing your weather request..." }]
              : List StreamItem)
              ++ [{ is_task_complete := true, content := "done" }]) none).2 "t1").map
          (fun t => t.status)
        = some { state := TaskState.completed,
                 message := some { role := "agent", parts := [Part.text "done"] } }) :=
  ⟨rfl, streaming_event_sequence [("t1", exampleTask)] "t1"
    [{ is_task_complete := false, content := "Processing your weather request..." }]
    { is_task_complete := true, content := "done" } exampleTask rfl
    (by decide) rfl⟩

/-- C6: when the agent's stream raises after yielding only non-final items,
the subscription yields the per-item working updates followed by exactly one
internal-error protocol response, which is the last element of the emitted
sequence: nothing follows it, and no terminal (final = true) task-status
event is ever emitted for that task. -/
theorem streaming_error_stops (tasks : TaskMap) (taskId : String)
    (items : List StreamItem) (e : String) (t0 : Task)
    (hfind : tasks.find taskId = some t0)
    (hitems : ∀ it ∈ items, it.is_task_complete = false) :
    (stream_generator tasks taskId items (some e)).1
      = items.map (fun it => StreamEvent.statusUpdate taskId (stream_status it) false)
        ++ [StreamEvent.errorResponse (.internalError STREAM_ERROR_MESSAGE)]
    ∧ ((stream_generator tasks taskId items (some e)).1.countP
        (fun ev => ev.isError)) = 1
    ∧ (stream_generator tasks taskId items (some e)).1.getLast?
        = some (StreamEvent.errorResponse (.internalError STREAM_ERROR_MESSAGE))
    ∧ ∀ ev ∈ (stream_generator tasks taskId items (some e)).1, ev.isFinal = false := by
  have hrun := (stream_generator_run taskId items (some e) tasks t0 hfind).1
  have hE : (stream_generator tasks taskId items (some e)).1
      = items.map (fun it => StreamEvent.statusUpdate taskId (stream_status it) false)
        ++ [StreamEvent.errorResponse (.internalError STREAM_ERROR_MESSAGE)] := by
    rw [hrun]
    congr 1
    apply List.map_congr_left
    intro it hit
    rw [hitems it hit]
  refine ⟨hE, ?_, ?_, ?_⟩
  · rw [hE, List.countP_append, List.countP_map]
    have h0 : items.countP ((fun ev => StreamEvent.isError ev)
        ∘ (fun it => StreamEvent.statusUpdate taskId (stream_status it) false)) = 0 := by
      apply List.countP_eq_zero.mpr
      intro it _
      simp [StreamEvent.isError, Function.comp]
    rw [h0]
    rfl
  · rw [hE, List.getLast?_concat]
  · rw [hE]
    intro ev hev
    rcases List.mem_append.mp hev with hm | hm
    · rcases List.mem_map.mp hm with ⟨it, _, hit⟩
      rw [← hit]
      rfl
    · rcases List.mem_singleton.mp hm with rfl
      rfl

/-- C6 witness: a stream that yields one progress item and then raises. -/
theorem streaming_error_stops_witness :
    TaskMap.find [("t1", exampleTask)] "t1" = some exampleTask
    ∧ ((stream_generator [("t1", exampleTask)] "t1"
          [{ is_task_complete := false, content := "working" }] (some "boom")).1
        = [{ is_task_complete := false, content := "working" }].map
            (fun it => StreamEvent.statusUpdate "t1" (stream_status it) false)
          ++ [StreamEvent.errorResponse (.internalError STREAM_ERROR_MESSAGE)]
      ∧ ((stream_generator [("t1", exampleTask)] "t1"
            [{ is_task_complete := false, content := "working" }] (some "boom")).1.countP
          (fun ev => ev.isError)) = 1
      ∧ (stream_generator [("t1", exampleTask)] "t1"
            [{ is_task_complete := false, content := "working" }] (some "boom")).1.getLast?
          = some (StreamEvent.errorResponse (.internalError STREAM_ERROR_MESSAGE))
      ∧ ∀ ev ∈ (stream_generator [("t1", exampleTask)] "t1"
            [{ is_task_complete := false, content := "working" }] (some "boom")).1,
          ev.isFinal = false) :=
  ⟨rfl, streaming_error_stops [("t1", exampleTask)] "t1"
    [{ is_task_complete := false, content := "working" }] "boom" exampleTask rfl
    (by decide)⟩

/-- C3 counterexample: on a request whose first message part is not text
(output modes compatible), `on_send_task` does not return a structured
protocol error — the ValueError from query extraction propagates uncaught —
and by then the upsert has already created the task record for "t1" in the
previously empty map: part validation does not occur before task creation. -/
theorem on_send_task_nontext_creates_record :
    on_send_task [] (fun q => .ok q) nonTextParams
      = (.error "Only text parts are supported",
         [("t1", { id := "t1", sessionId := "s1",
                   status := { state := TaskState.submitted } })]) := by
  rfl

/-- C3 amended: a request whose accepted output modes do not intersect the
supported content types is rejected with the structured incompatible-types
error before any task is created or mutated (the map is returned unchanged);
but a request with compatible modes whose first message part is not text
raises an uncaught ValueError from query extraction only after the task
record has been upserted, so no structured protocol error is returned for
that case and the created record remains in the map. -/
theorem on_send_task_validation_behaviour (tasks : TaskMap)
    (agentInvoke : String → Except String String) (params : TaskSendParams)
    (k : String) (ks : List Part) :
    (are_modalities_compatible params.acceptedOutputModes SUPPORTED_CONTENT_TYPES = false →
      on_send_task tasks agentInvoke params
        = (.ok (.error RpcError.contentTypeNotSupported), tasks))
    ∧ (are_modalities_compatible params.acceptedOutputModes SUPPORTED_CONTENT_TYPES = true →
      params.message.parts = Part.nonText k :: ks →
      on_send_task tasks agentInvoke params
          = (.error "Only text parts are supported", upsert_task tasks params)
        ∧ TaskMap.find (upsert_task tasks params) params.id ≠ none) := by
  constructor
  · intro h
    simp [on_send_task, validate_request, h]
  · intro hmode hparts
    refine ⟨?_, upsert_task_find_ne_none tasks params⟩
    simp [on_send_task, validate_request, hmode, invoke, get_user_query, hparts]

/-- C3 witness for the amended claim: applied once to a request with
incompatible modes, pinning the structured incompatible-types error with the
empty map untouched, and once to a request with a non-text first part,
pinning the uncaught error with the record created. -/
theorem on_send_task_validation_behaviour_witness :
    on_send_task [] (fun q => .ok q) badModeParams
        = (.ok (.error RpcError.contentTypeNotSupported), [])
    ∧ (on_send_task [] (fun q => .ok q) nonTextParams
          = (.error "Only text parts are supported", upsert_task [] nonTextParams)
        ∧ TaskMap.find (upsert_task [] nonTextParams) nonTextParams.id ≠ none) :=
  ⟨(on_send_task_validation_behaviour [] (fun q => .ok q) badModeParams "x" []).1 rfl,
   (on_send_task_validation_behaviour [] (fun q => .ok q) nonTextParams "file" []).2
     rfl rfl⟩

/-- C8: for every city of the fixed ten-city table, the temperature reported
by the lookup with unit "fahrenheit" equals the temperature reported with
unit "celsius" multiplied by 9/5 plus 32. -/
theorem fahrenheit_is_linear_in_celsius (city : String)
    (h : city ∈ weather_data.map Prod.fst) :
    reported_temp city "fahrenheit"
      = (reported_temp city "celsius").map (fun t => t * 9 / 5 + 32) := by
  have hf : lower "fahrenheit" = "fahrenheit" := by decide
  have hc : ¬ lower "celsius" = "fahrenheit" := by decide
  cases hfind : find_city city with
  | none => simp [reported_temp, hfind]
  | some kv => simp [reported_temp, hfind, hf, hc]

/-- C8 witness: the conversion relation at the table city "Tokyo". -/
theorem fahrenheit_is_linear_in_celsius_witness :
    "Tokyo" ∈ weather_data.map Prod.fst
    ∧ reported_temp "Tokyo" "fahrenheit"
        = (reported_temp "Tokyo" "celsius").map (fun t => t * 9 / 5 + 32) :=
  ⟨by decide, fahrenheit_is_linear_in_celsius "Tokyo" (by decide)⟩

/-- C9: for every location string matching no table entry case-insensitively
and any unit argument, `get_weather` returns the fixed not-available message
built from the location; the lookup is a total function, which embeds that it
never raises. -/
theorem unknown_location_not_available (location unit : String)
    (h : ∀ kv ∈ weather_data, lower kv.1 ≠ lower location) :
    get_weather location unit
      = "Weather data for " ++ location ++ " is not available." := by
  have hnone : find_city location = none := by
    unfold find_city
    apply List.find?_eq_none.mpr
    intro kv hkv
    simp [h kv hkv]
  unfold get_weather
  rw [hnone]

/-- C9 witness: the unknown location "Atlantis" with an arbitrary unit. -/
theorem unknown_location_not_available_witness :
    (∀ kv ∈ weather_data, lower kv.1 ≠ lower "Atlantis")
    ∧ get_weather "Atlantis" "kelvin"
        = "Weather data for " ++ "Atlantis" ++ " is not available." :=
  ⟨by decide, unknown_location_not_available "Atlantis" "kelvin" (by decide)⟩

end A2AWeather
